import Mathlib

/-
Verification of the basecamp-cli authentication subsystem.

Shallow embedding of the Rust sources under src/: pure logic is translated
directly; effectful code (network, filesystem, keyring, stdin) is embedded as
functions over explicit inputs standing for the results of those effects, with
the sequence of performed effects returned as an explicit trace where a claim
is about ordering or absence of effects. External crates (age, url, oauth2,
serde_json at the byte level) are not part of the repository; where a claim
depends on their contract the model follows the specification text and says so
in the doc comment.
-/

namespace BasecampCli

/-- Error type mirroring AppError in src/error.rs: an i32 code and a message.
The constructor helpers below mirror AppError::generic, invalid_input, oauth,
no_account and secure_storage with their fixed codes 1..5. -/
structure AppError where
  code : Int
  message : String
deriving Repr, DecidableEq

def AppError.generic (m : String) : AppError := ⟨1, m⟩

def AppError.invalid_input (m : String) : AppError := ⟨2, m⟩

def AppError.oauth (m : String) : AppError := ⟨3, m⟩

def AppError.no_account (m : String) : AppError := ⟨4, m⟩

def AppError.secure_storage (m : String) : AppError := ⟨5, m⟩

/-- Result alias mirroring AppResult in src/error.rs. -/
abbrev AppResult (α : Type) := Except AppError α

/-- Account record mirroring Account in src/features/auth/oauth.rs. -/
structure Account where
  id : Nat
  name : String
  href : String
  product : String
deriving Repr, DecidableEq

/-- Outcome of account selection. The Rust select_account either returns an
account, returns an error, or (when several accounts are eligible and none was
requested) falls through to the interactive prompt_for_account; the prompt is
an effect, so it is represented as its own outcome carrying the eligible
list. -/
inductive SelectOutcome where
  | ok (account : Account)
  | err (e : AppError)
  | prompt (eligible : List Account)
deriving Repr, DecidableEq

/-- Translation of select_account in src/features/auth/login.rs lines 65-93:
filter the accounts to product == "bc3"; error if none; if an account id was
requested, find it among the filtered accounts or error; if exactly one is
eligible return it; otherwise prompt. -/
def select_account (accounts : List Account) (requested_account_id : Option Nat) :
    SelectOutcome :=
  let bc3_accounts := accounts.filter (fun account => account.product == "bc3")
  if bc3_accounts.isEmpty then
    SelectOutcome.err (AppError.no_account
      "No accessible Basecamp account found (product == bc3).")
  else
    match requested_account_id with
    | some account_id =>
        match bc3_accounts.find? (fun account => account.id == account_id) with
        | some account => SelectOutcome.ok account
        | none => SelectOutcome.err (AppError.no_account
            ("Requested account_id " ++ toString account_id ++
             " was not found in accessible Basecamp accounts."))
    | none =>
        match bc3_accounts with
        | [account] => SelectOutcome.ok account
        | eligible => SelectOutcome.prompt eligible

/-- Vault contents mirroring SecretConfig in src/features/auth/models.rs. -/
structure SecretConfig where
  client_secret : Option String
  access_token : Option String
  refresh_token : Option String
deriving Repr, DecidableEq

/-- Mirror of IntegrationConfig in src/features/auth/models.rs. -/
structure IntegrationConfig where
  client_id : Option String
  redirect_uri : Option String
deriving Repr, DecidableEq

/-- Mirror of SessionConfig in src/features/auth/models.rs. -/
structure SessionConfig where
  account_id : Option Nat
  account_name : Option String
  account_href : Option String
  updated_at : Option String
deriving Repr, DecidableEq

/-- Mirror of AppConfig in src/features/auth/models.rs. -/
structure AppConfig where
  integration : IntegrationConfig
  session : SessionConfig
deriving Repr, DecidableEq

/-- Mirror of LoginOverrides in src/features/auth/models.rs. -/
structure LoginOverrides where
  client_id : Option String
  client_secret : Option String
  redirect_uri : Option String
deriving Repr, DecidableEq

/-- Mirror of ResolvedIntegration in src/features/auth/models.rs. -/
structure ResolvedIntegration where
  client_id : String
  client_secret : String
  redirect_uri : String
deriving Repr, DecidableEq

/-- Translation of pick_value in src/features/auth/integration.rs lines
176-185: flatten the three optional sources in priority order and take the
first whose trimmed value is nonempty. -/
def pick_value (primary secondary tertiary : Option String) : Option String :=
  (([primary, secondary, tertiary].filterMap id).find?
    (fun value => !value.trim.isEmpty))

/-- Translation of env_value in src/features/auth/integration.rs lines
187-195; the process environment is passed in as a lookup function. -/
def env_value (env : String → Option String) (name : String) : Option String :=
  match env name with
  | none => none
  | some value => if value.trim.isEmpty then none else some value

/-- Result of URL parsing as consumed by the code: scheme, optional host,
optional port, path. The parser itself is the external url crate; each model
that needs it takes the parse outcome as input. -/
structure ParsedUrl where
  scheme : String
  host : Option String
  port : Option Nat
  path : String
deriving Repr, DecidableEq

/-- Translation of validate_redirect_uri in src/features/auth/integration.rs
lines 204-219, over an injected parser standing for url::Url::parse. -/
def validate_redirect_uri (parseUrl : String → Except String ParsedUrl)
    (redirect_uri : String) : AppResult Unit :=
  match parseUrl redirect_uri with
  | .error err => .error (AppError.invalid_input ("Invalid redirect_uri: " ++ err))
  | .ok parsed =>
      if parsed.scheme != "http" && parsed.scheme != "https" then
        .error (AppError.invalid_input "redirect_uri must use http or https scheme.")
      else if parsed.host.isNone then
        .error (AppError.invalid_input "redirect_uri must include a host.")
      else
        .ok ()

/-- Translation of resolve_login_credentials in
src/features/auth/integration.rs lines 110-154. The loaded config and secrets
(load_config and load_secrets results) and the process environment are passed
as inputs; the three fields are picked in override, environment, stored
order and the redirect URI is validated at the end. -/
def resolve_login_credentials (parseUrl : String → Except String ParsedUrl)
    (env : String → Option String) (config : AppConfig) (secrets : SecretConfig)
    (overrides : LoginOverrides) : AppResult ResolvedIntegration :=
  match pick_value overrides.client_id (env_value env "BASECAMP_CLIENT_ID")
      config.integration.client_id with
  | none => .error (AppError.invalid_input
      "Missing client_id. Set via --client-id, BASECAMP_CLIENT_ID, or `basecamp integration set`.")
  | some client_id =>
    match pick_value overrides.client_secret (env_value env "BASECAMP_CLIENT_SECRET")
        secrets.client_secret with
    | none => .error (AppError.invalid_input
        "Missing client_secret. Set via --client-secret, BASECAMP_CLIENT_SECRET, or `basecamp integration set`.")
    | some client_secret =>
      match pick_value overrides.redirect_uri (env_value env "BASECAMP_REDIRECT_URI")
          config.integration.redirect_uri with
      | none => .error (AppError.invalid_input
          "Missing redirect_uri. Set via --redirect-uri, BASECAMP_REDIRECT_URI, or `basecamp integration set`.")
      | some redirect_uri =>
        match validate_redirect_uri parseUrl redirect_uri with
        | .error e => .error e
        | .ok _ => .ok ⟨client_id, client_secret, redirect_uri⟩

/-- Specification-side description of source priority for one credential
field: take the first of the three sources that is present and not blank
after trimming. Used to compare pick_value against the wording of the spec. -/
def source_or (source : Option String) (fallback : Option String) : Option String :=
  match source with
  | some v => if v.trim.isEmpty then fallback else some v
  | none => fallback

/-- Specification-side priority chain: CLI override, then environment, then
stored value, each consulted only when every earlier source is absent or
blank. -/
def first_non_blank (cli envv stored : Option String) : Option String :=
  source_or cli (source_or envv (source_or stored none))

/-- What a successful CallbackServer::bind produces before touching the
network: the address handed to TcpListener::bind and the expected callback
path. Producing this plan is the last step before the socket is opened, so a
validation error means no bind is attempted. -/
structure CallbackServerPlan where
  bind_addr : String
  expected_path : String
deriving Repr, DecidableEq

/-- Translation of the validation part of CallbackServer::bind in
src/features/auth/callback.rs lines 25-62, over an injected parser standing
for url::Url::parse: scheme must be exactly http, host must be localhost or
127.0.0.1, a port must be reported by the parser; then the listener address
127.0.0.1:port and expected path are produced for TcpListener::bind. -/
def CallbackServer.bind_plan (parseUrl : String → Except String ParsedUrl)
    (redirect_uri : String) : AppResult CallbackServerPlan :=
  match parseUrl redirect_uri with
  | .error err => .error (AppError.invalid_input ("Invalid redirect_uri: " ++ err))
  | .ok parsed =>
      if parsed.scheme != "http" then
        .error (AppError.invalid_input
          "redirect_uri for CLI login must use http loopback (for example http://127.0.0.1:45455/callback).")
      else
        match parsed.host with
        | none => .error (AppError.invalid_input "redirect_uri must include a host.")
        | some host =>
            if host != "127.0.0.1" && host != "localhost" then
              .error (AppError.invalid_input
                "redirect_uri host must be localhost or 127.0.0.1 for CLI login.")
            else
              match parsed.port with
              | none => .error (AppError.invalid_input
                  "redirect_uri must include an explicit port for local callback handling.")
              | some port =>
                  let expected_path := if parsed.path.isEmpty then "/" else parsed.path
                  .ok ⟨"127.0.0.1:" ++ toString port, expected_path⟩

/-- Token endpoint response as the oauth2 crate presents it to exchange_code:
an access token (always present in a parsed success response) and an optional
refresh token. The network request itself is passed in as an Except input. -/
structure TokenEndpointResponse where
  access_token : String
  refresh_token : Option String
deriving Repr, DecidableEq

/-- Mirror of TokenBundle in src/features/auth/oauth.rs. -/
structure TokenBundle where
  access_token : String
  refresh_token : String
deriving Repr, DecidableEq

/-- Translation of exchange_code in src/features/auth/oauth.rs lines 77-99:
the token request outcome is an input; a transport or provider failure maps to
an oauth error, a response without refresh_token maps to an oauth error, and
only a response with both tokens yields a TokenBundle. -/
def exchange_code (request_result : Except String TokenEndpointResponse) :
    AppResult TokenBundle :=
  match request_result with
  | .error err => .error (AppError.oauth ("OAuth token exchange failed: " ++ err))
  | .ok token_response =>
      match token_response.refresh_token with
      | none => .error (AppError.oauth
          "OAuth token response did not include refresh_token.")
      | some refresh_token => .ok ⟨token_response.access_token, refresh_token⟩

/-- Mirror of CallbackPayload in src/features/auth/callback.rs. -/
structure CallbackPayload where
  code : String
  state : String
deriving Repr, DecidableEq

/-- Mirror of SessionData in src/features/auth/models.rs. -/
structure SessionData where
  access_token : String
  refresh_token : String
  account_id : Nat
  account_name : String
  account_href : String
deriving Repr, DecidableEq

/-- Mirror of LoginOutput in src/features/auth/models.rs. -/
structure LoginOutput where
  ok : Bool
  account_id : Nat
  account_name : String
deriving Repr, DecidableEq

/-- The externally visible effects the login orchestrator can perform after
the callback arrives: the token exchange network call, the authorization
introspection network call, and the session write. -/
inductive LoginStep where
  | token_exchange (code : String)
  | fetch_authorization (access_token : String)
  | save_session_write (data : SessionData)
deriving Repr, DecidableEq

/-- Environment for the orchestrator: results of the effectful collaborators
of run in src/features/auth/login.rs, from the point where the callback
server is bound and the authorization URL with its fresh CSRF token has been
built. -/
structure LoginEnv where
  expected_state : String
  wait_result : AppResult CallbackPayload
  exchange_result : String → AppResult TokenBundle
  fetch_result : String → AppResult (List Account)
  prompt_result : List Account → AppResult Account
  save_result : SessionData → AppResult Unit
  requested_account_id : Option Nat

/-- Translation of the body of run in src/features/auth/login.rs lines 38-62,
with the trace of performed effects made explicit: wait for the callback,
compare its state against the CSRF token, exchange the code, fetch the
authorization accounts, select an account (prompting if needed), and save the
session. -/
def login_run (env : LoginEnv) : AppResult LoginOutput × List LoginStep :=
  match env.wait_result with
  | .error e => (.error e, [])
  | .ok callback =>
    if callback.state != env.expected_state then
      (.error (AppError.oauth "OAuth state mismatch. Aborting login for security."), [])
    else
      match env.exchange_result callback.code with
      | .error e => (.error e, [LoginStep.token_exchange callback.code])
      | .ok tokens =>
        match env.fetch_result tokens.access_token with
        | .error e => (.error e,
            [LoginStep.token_exchange callback.code,
             LoginStep.fetch_authorization tokens.access_token])
        | .ok accounts =>
          let trace := [LoginStep.token_exchange callback.code,
                        LoginStep.fetch_authorization tokens.access_token]
          let selected : AppResult Account :=
            match select_account accounts env.requested_account_id with
            | SelectOutcome.ok account => .ok account
            | SelectOutcome.err e => .error e
            | SelectOutcome.prompt eligible => env.prompt_result eligible
          match selected with
          | .error e => (.error e, trace)
          | .ok account =>
            let data : SessionData :=
              ⟨tokens.access_token, tokens.refresh_token,
               account.id, account.name, account.href⟩
            match env.save_result data with
            | .error e => (.error e, trace ++ [LoginStep.save_session_write data])
            | .ok _ => (.ok ⟨true, account.id, account.name⟩,
                trace ++ [LoginStep.save_session_write data])

/-- Disk effects of the session/integration store, in the order save_session
performs them. -/
inductive StoreStep where
  | load_secrets
  | save_secrets (s : SecretConfig)
  | load_config
  | save_config (c : AppConfig)
deriving Repr, DecidableEq

/-- Environment for the session/integration store: outcomes of the vault and
config file operations that save_session composes. -/
structure StoreEnv where
  load_secrets_result : AppResult SecretConfig
  save_secrets_result : SecretConfig → AppResult Unit
  load_config_result : AppResult AppConfig
  save_config_result : AppConfig → AppResult Unit
  now : String

/-- Translation of save_session in src/features/auth/integration.rs lines
94-108, with the trace of disk effects made explicit: load the vault, write
the two tokens into it and save it; only then load the plaintext config,
write the account fields and timestamp into it and save it. An error at any
step returns immediately, skipping every later effect. -/
def save_session (env : StoreEnv) (data : SessionData) :
    AppResult Unit × List StoreStep :=
  match env.load_secrets_result with
  | .error e => (.error e, [StoreStep.load_secrets])
  | .ok secrets0 =>
    let secrets : SecretConfig :=
      { secrets0 with
          access_token := some data.access_token,
          refresh_token := some data.refresh_token }
    match env.save_secrets_result secrets with
    | .error e => (.error e, [StoreStep.load_secrets, StoreStep.save_secrets secrets])
    | .ok _ =>
      match env.load_config_result with
      | .error e => (.error e,
          [StoreStep.load_secrets, StoreStep.save_secrets secrets,
           StoreStep.load_config])
      | .ok config0 =>
        let config : AppConfig :=
          { config0 with
              session :=
                { account_id := some data.account_id,
                  account_name := some data.account_name,
                  account_href := some data.account_href,
                  updated_at := some env.now } }
        match env.save_config_result config with
        | .error e => (.error e,
            [StoreStep.load_secrets, StoreStep.save_secrets secrets,
             StoreStep.load_config, StoreStep.save_config config])
        | .ok _ => (.ok (),
            [StoreStep.load_secrets, StoreStep.save_secrets secrets,
             StoreStep.load_config, StoreStep.save_config config])

/-- JSON values at the level serde_json round-trips them for the vault
envelope: null, strings, non-negative integers and objects are the only
shapes the envelope uses. -/
inductive Json where
  | null
  | str (s : String)
  | num (n : Nat)
  | obj (fields : List (String × Json))
deriving Repr

/-- Serde encoding of an Option String field: None becomes null, Some a
string. -/
def encodeOptString : Option String → Json
  | none => Json.null
  | some s => Json.str s

/-- Serde encoding of SecretConfig, fields in declaration order as the derive
emits them. -/
def SecretConfig.toJson (c : SecretConfig) : Json :=
  Json.obj [("client_secret", encodeOptString c.client_secret),
            ("access_token", encodeOptString c.access_token),
            ("refresh_token", encodeOptString c.refresh_token)]

/-- Field lookup in a JSON object, first match wins. -/
def lookupField (fields : List (String × Json)) (name : String) : Option Json :=
  (fields.find? (fun field => field.1 == name)).map (fun field => field.2)

/-- Serde decoding of an Option String field: a missing field or null is
None, a string is Some, any other shape is a type error. -/
def decodeOptString : Option Json → Except String (Option String)
  | none => .ok none
  | some Json.null => .ok none
  | some (Json.str s) => .ok (some s)
  | some _ => .error "invalid type for optional string field"

/-- Serde decoding of SecretConfig from a JSON value. -/
def SecretConfig.fromJson : Json → Except String SecretConfig
  | Json.obj fields => do
      let cs ← decodeOptString (lookupField fields "client_secret")
      let acc ← decodeOptString (lookupField fields "access_token")
      let refr ← decodeOptString (lookupField fields "refresh_token")
      .ok ⟨cs, acc, refr⟩
  | _ => .error "invalid type: expected SecretConfig object"

/-- Mirror of EncryptedSecretsFile in src/features/auth/secret_store.rs: the
versioned envelope serialized into the vault. The version field is a u8 in
the source, so decoding enforces the 0..255 range. -/
structure EncryptedSecretsFile where
  version : Nat
  secrets : SecretConfig
deriving Repr, DecidableEq

/-- Serde encoding of the envelope. -/
def EncryptedSecretsFile.toJson (f : EncryptedSecretsFile) : Json :=
  Json.obj [("version", Json.num f.version), ("secrets", f.secrets.toJson)]

/-- Serde decoding of the u8 version field. -/
def decodeU8 : Option Json → Except String Nat
  | some (Json.num n) =>
      if n < 256 then .ok n else .error "invalid value: integer out of u8 range"
  | _ => .error "missing or invalid field version"

/-- Serde decoding of the envelope from a JSON value. -/
def EncryptedSecretsFile.fromJson : Json → Except String EncryptedSecretsFile
  | Json.obj fields => do
      let version ← decodeU8 (lookupField fields "version")
      match lookupField fields "secrets" with
      | none => .error "missing field secrets"
      | some js => do
          let secrets ← SecretConfig.fromJson js
          .ok ⟨version, secrets⟩
  | _ => .error "invalid type: expected envelope object"

/-- Modelled from the spec: the scrypt-based authenticated encryption used by
encrypt_with_passphrase and decrypt_with_passphrase in
src/features/auth/secret_store.rs lives in the external age crate and is not
part of this repository. Following the contract stated by the spec (decrypt
under the encrypting passphrase recovers the plaintext; decrypt under any
other passphrase, or of corrupted data, fails closed), a ciphertext is an
opaque pairing of the key material with the plaintext, inspectable only
through decrypt. -/
structure AgeCiphertext where
  key : String
  payload : Json

/-- Mirror of encrypt_with_passphrase in src/features/auth/secret_store.rs
lines 173-177 over the modelled cipher. -/
def encrypt_with_passphrase (plaintext : Json) (passphrase : String) :
    AgeCiphertext :=
  ⟨passphrase, plaintext⟩

/-- Mirror of decrypt_with_passphrase in src/features/auth/secret_store.rs
lines 179-183 over the modelled cipher: any passphrase other than the
encrypting one fails with a secure-storage error. -/
def decrypt_with_passphrase (ciphertext : AgeCiphertext) (passphrase : String) :
    AppResult Json :=
  if ciphertext.key == passphrase then .ok ciphertext.payload
  else .error (AppError.secure_storage "Failed to decrypt secret data: decryption failed")

/-- Mirror of SECRETS_VERSION in src/features/auth/secret_store.rs. -/
def SECRETS_VERSION : Nat := 1

/-- Translation of SecretStore::load in src/features/auth/secret_store.rs
lines 56-86: a missing vault file yields the default all-None SecretConfig;
otherwise the file bytes are decrypted with the keyring passphrase, parsed as
the JSON envelope, the version is checked against SECRETS_VERSION, and the
contained secrets are returned. The file content and passphrase are inputs
standing for the filesystem read and keyring fetch. -/
def SecretStore.load (file : Option AgeCiphertext) (passphrase : String) :
    AppResult SecretConfig :=
  match file with
  | none => .ok ⟨none, none, none⟩
  | some ciphertext =>
    match decrypt_with_passphrase ciphertext passphrase with
    | .error e => .error e
    | .ok plaintext =>
      match EncryptedSecretsFile.fromJson plaintext with
      | .error err => .error (AppError.secure_storage
          ("Failed to decode decrypted secret file: " ++ err))
      | .ok parsed =>
        if parsed.version > SECRETS_VERSION then
          .error (AppError.secure_storage
            ("Secrets file version " ++ toString parsed.version ++
             " is newer than supported version " ++ toString SECRETS_VERSION ++ "."))
        else
          .ok parsed.secrets

/-- Translation of the codec part of SecretStore::save in
src/features/auth/secret_store.rs lines 88-107: wrap the secrets in an
envelope carrying SECRETS_VERSION, serialize, and encrypt with the keyring
passphrase. The atomic file write it then performs is modelled separately by
write_file_atomically. -/
def SecretStore.save (secrets : SecretConfig) (passphrase : String) :
    AgeCiphertext :=
  encrypt_with_passphrase (EncryptedSecretsFile.toJson ⟨SECRETS_VERSION, secrets⟩)
    passphrase

/-- Filesystem state the atomic writer touches: the destination file and the
uniquely named temp file, each either absent or holding byte content. -/
structure FsState where
  dest : Option (List Nat)
  temp : Option (List Nat)
deriving Repr, DecidableEq

/-- Injected outcomes for each fallible filesystem call the atomic writer
makes, standing for create_new, write_all, sync_all, rename and the
best-effort remove_file. -/
structure FsBehavior where
  create_ok : Bool
  write_ok : Bool
  sync_ok : Bool
  rename_ok : Bool
  remove_ok : Bool
deriving Repr, DecidableEq

/-- Result of one atomic-writer execution: the returned AppResult, the final
filesystem state, and whether a remove of the temp file was attempted. -/
structure WriteOutcome where
  result : AppResult Unit
  fs : FsState
  remove_attempted : Bool
deriving Repr

/-- Translation of write_file_atomically in src/features/auth/secret_store.rs
lines 201-252: create the temp file, write all bytes, sync, then rename onto
the destination; only the rename failure branch attempts to remove the temp
file before returning. Path formatting inside the error messages is elided. -/
def write_file_atomically (fs : FsBehavior) (s0 : FsState) (contents : List Nat) :
    WriteOutcome :=
  if !fs.create_ok then
    ⟨.error (AppError.secure_storage "Failed to create temporary secret file"),
     s0, false⟩
  else
    let s1 : FsState := { s0 with temp := some [] }
    if !fs.write_ok then
      ⟨.error (AppError.secure_storage "Failed to write temporary secret file"),
       s1, false⟩
    else
      let s2 : FsState := { s0 with temp := some contents }
      if !fs.sync_ok then
        ⟨.error (AppError.secure_storage "Failed to sync temporary secret file"),
         s2, false⟩
      else
        if !fs.rename_ok then
          ⟨.error (AppError.secure_storage
             "Failed to atomically replace secret file"),
           (if fs.remove_ok then { s2 with temp := none } else s2), true⟩
        else
          ⟨.ok (), { dest := some contents, temp := none }, false⟩

/-- C1: for every login attempt, if the callback payload state differs from
the CSRF token generated for that attempt, the orchestrator aborts with an
OAuth/security error and never performs the token-exchange network call; the
authorization code is discarded unexchanged. -/
theorem login_state_mismatch_no_exchange (env : LoginEnv)
    (callback : CallbackPayload) (hw : env.wait_result = .ok callback)
    (hne : callback.state ≠ env.expected_state) :
    (login_run env).1 = .error (AppError.oauth
      "OAuth state mismatch. Aborting login for security.") ∧
    ∀ code, LoginStep.token_exchange code ∉ (login_run env).2 := by
  have hb : (callback.state != env.expected_state) = true := bne_iff_ne.mpr hne
  simp [login_run, hw, hb]

def csrf_mismatch_env : LoginEnv :=
  { expected_state := "XYZ"
    wait_result := .ok ⟨"abc", "WRONG"⟩
    exchange_result := fun _ => .ok ⟨"acc", "ref"⟩
    fetch_result := fun _ => .ok [⟨1, "One", "h1", "bc3"⟩]
    prompt_result := fun _ => .error (AppError.generic "no prompt")
    save_result := fun _ => .ok ()
    requested_account_id := none }

theorem login_state_mismatch_no_exchange_witness :
    (login_run csrf_mismatch_env).1 = .error (AppError.oauth
      "OAuth state mismatch. Aborting login for security.") ∧
    ∀ code, LoginStep.token_exchange code ∉ (login_run csrf_mismatch_env).2 :=
  login_state_mismatch_no_exchange csrf_mismatch_env ⟨"abc", "WRONG"⟩ rfl (by decide)

/-- C5: account selection is deterministic. A list whose bc3-filtered form is
exactly one account yields that account with no requested id and without
prompting; a list with at least one eligible account but an explicitly
requested id carried by no eligible account fails with a no-account error
naming the id; a list with no bc3 account fails with a no-account error. -/
theorem select_account_deterministic :
    (∀ (accounts : List Account) (a1 : Account),
        accounts.filter (fun a => a.product == "bc3") = [a1] →
        select_account accounts none = SelectOutcome.ok a1)
  ∧ (∀ (accounts : List Account) (rid : Nat),
        accounts.filter (fun a => a.product == "bc3") ≠ [] →
        (∀ a ∈ accounts, a.product = "bc3" → a.id ≠ rid) →
        select_account accounts (some rid) = SelectOutcome.err (AppError.no_account
          ("Requested account_id " ++ toString rid ++
           " was not found in accessible Basecamp accounts.")))
  ∧ (∀ (accounts : List Account) (requested : Option Nat),
        accounts.filter (fun a => a.product == "bc3") = [] →
        ∃ m, select_account accounts requested =
          SelectOutcome.err (AppError.no_account m)) := by
  refine ⟨?_, ?_, ?_⟩
  · intro accounts a1 h
    simp [select_account, h]
  · intro accounts rid hne h
    have hfind : (accounts.filter (fun a => a.product == "bc3")).find?
        (fun a => a.id == rid) = none := by
      rw [List.find?_eq_none]
      intro a ha
      have hmem := List.mem_filter.mp ha
      have hprod : a.product = "bc3" := by simpa using hmem.2
      have hid := h a hmem.1 hprod
      simp [hid]
    cases hcase : accounts.filter (fun a => a.product == "bc3") with
    | nil => exact absurd hcase hne
    | cons b l =>
      rw [hcase] at hfind
      simp [select_account, hcase, hfind]
  · intro accounts requested h
    exact ⟨"No accessible Basecamp account found (product == bc3).",
      by simp [select_account, h]⟩

theorem select_account_deterministic_witness :
    select_account [⟨1, "One", "h1", "bc3"⟩, ⟨2, "Two", "h2", "other"⟩] none =
      SelectOutcome.ok ⟨1, "One", "h1", "bc3"⟩ ∧
    select_account [⟨1, "One", "h1", "bc3"⟩, ⟨3, "Three", "h3", "bc3"⟩] (some 9) =
      SelectOutcome.err (AppError.no_account
        ("Requested account_id " ++ toString 9 ++
         " was not found in accessible Basecamp accounts.")) ∧
    ∃ m, select_account [⟨2, "Two", "h2", "other"⟩] none =
      SelectOutcome.err (AppError.no_account m) :=
  ⟨select_account_deterministic.1 _ _ (by decide),
   select_account_deterministic.2.1 _ 9 (by decide) (by decide),
   select_account_deterministic.2.2 _ none (by decide)⟩

/-- C7: exchange_code succeeds only when the token endpoint response carries
both tokens; a response lacking a refresh token yields an OAuth error, never a
partial TokenBundle. -/
theorem exchange_code_requires_refresh_token
    (request_result : Except String TokenEndpointResponse) :
    (∀ resp, request_result = .ok resp → resp.refresh_token = none →
        exchange_code request_result = .error (AppError.oauth
          "OAuth token response did not include refresh_token."))
  ∧ (∀ bundle, exchange_code request_result = .ok bundle →
        ∃ resp, request_result = .ok resp ∧
          resp.refresh_token = some bundle.refresh_token ∧
          bundle.access_token = resp.access_token) := by
  constructor
  · intro resp hreq hnone
    simp [exchange_code, hreq, hnone]
  · intro bundle hb
    cases hreq : request_result with
    | error e => simp [exchange_code, hreq] at hb
    | ok resp =>
      cases hrt : resp.refresh_token with
      | none => simp [exchange_code, hreq, hrt] at hb
      | some rt =>
        simp [exchange_code, hreq, hrt] at hb
        exact ⟨resp, rfl, by simp [hrt, ← hb], by simp [← hb]⟩

theorem exchange_code_requires_refresh_token_witness :
    exchange_code (.ok ⟨"acc-token", none⟩) = .error (AppError.oauth
      "OAuth token response did not include refresh_token.") :=
  (exchange_code_requires_refresh_token (.ok ⟨"acc-token", none⟩)).1
    ⟨"acc-token", none⟩ rfl rfl

/-- C10 as stated is false: in a list holding two accounts with the requested
id, one of product other and one of product bc3, selection returns the bc3
account instead of failing, even though the list contains an account carrying
the requested id whose product is not bc3. -/
theorem select_account_requested_nonbc3_counterexample :
    ¬ (∀ (accounts : List Account) (rid : Nat),
        (∃ a ∈ accounts, a.id = rid ∧ a.product ≠ "bc3") →
        ∃ m, select_account accounts (some rid) =
          SelectOutcome.err (AppError.no_account m)) := by
  intro h
  rcases h [⟨1, "Alpha", "ha", "other"⟩, ⟨1, "Beta", "hb", "bc3"⟩] 1
      ⟨⟨1, "Alpha", "ha", "other"⟩, by decide⟩ with ⟨m, hm⟩
  have heval : select_account [⟨1, "Alpha", "ha", "other"⟩, ⟨1, "Beta", "hb", "bc3"⟩]
      (some 1) = SelectOutcome.ok ⟨1, "Beta", "hb", "bc3"⟩ := by decide
  rw [heval] at hm
  exact SelectOutcome.noConfusion hm

/-- C10 amended: an explicitly requested account id is matched only against
accounts with product bc3, so whenever no bc3 account in the list carries the
requested id, selection fails with a no-account error and never returns any
account; in particular it never returns an account whose product is not
bc3. -/
theorem select_account_requested_matched_against_bc3_only
    (accounts : List Account) (rid : Nat)
    (h : ∀ a ∈ accounts, a.product = "bc3" → a.id ≠ rid) :
    (∃ m, select_account accounts (some rid) =
        SelectOutcome.err (AppError.no_account m)) ∧
    ∀ a, select_account accounts (some rid) ≠ SelectOutcome.ok a := by
  have hmain : ∃ m, select_account accounts (some rid) =
      SelectOutcome.err (AppError.no_account m) := by
    cases hcase : accounts.filter (fun a => a.product == "bc3") with
    | nil =>
      exact ⟨"No accessible Basecamp account found (product == bc3).",
        by simp [select_account, hcase]⟩
    | cons b l =>
      have hfind : (accounts.filter (fun a => a.product == "bc3")).find?
          (fun a => a.id == rid) = none := by
        rw [List.find?_eq_none]
        intro a ha
        have hmem := List.mem_filter.mp ha
        have hprod : a.product = "bc3" := by simpa using hmem.2
        have hid := h a hmem.1 hprod
        simp [hid]
      rw [hcase] at hfind
      exact ⟨"Requested account_id " ++ toString rid ++
          " was not found in accessible Basecamp accounts.",
        by simp [select_account, hcase, hfind]⟩
  refine ⟨hmain, ?_⟩
  intro a hcontra
  rcases hmain with ⟨m, hm⟩
  rw [hcontra] at hm
  exact SelectOutcome.noConfusion hm

theorem select_account_requested_matched_against_bc3_only_witness :
    (∃ m, select_account [⟨1, "Alpha", "ha", "other"⟩] (some 1) =
        SelectOutcome.err (AppError.no_account m)) ∧
    ∀ a, select_account [⟨1, "Alpha", "ha", "other"⟩] (some 1) ≠
        SelectOutcome.ok a :=
  select_account_requested_matched_against_bc3_only
    [⟨1, "Alpha", "ha", "other"⟩] 1 (by decide)

theorem pick_value_eq_first_non_blank (p s t : Option String) :
    pick_value p s t = first_non_blank p s t := by
  rcases p with _ | v <;> rcases s with _ | w <;> rcases t with _ | x <;>
    simp [pick_value, first_non_blank, source_or, List.filterMap, List.find?] <;>
    split_ifs <;> simp_all [List.find?]

/-- C6: each of the three credential fields resolves to the first non-blank
value among CLI override, environment variable and stored config or vault, in
that order (pick_value agrees with the specification-side priority chain
first_non_blank pointwise); when all three sources for a field are blank or
absent, resolution fails with an invalid-input error naming the flag, the
environment variable and the command that can supply the field. -/
theorem resolve_login_credentials_priority :
    (∀ p s t, pick_value p s t = first_non_blank p s t)
  ∧ (∀ parseUrl env config secrets overrides r,
        resolve_login_credentials parseUrl env config secrets overrides = .ok r →
        some r.client_id = pick_value overrides.client_id
            (env_value env "BASECAMP_CLIENT_ID") config.integration.client_id ∧
        some r.client_secret = pick_value overrides.client_secret
            (env_value env "BASECAMP_CLIENT_SECRET") secrets.client_secret ∧
        some r.redirect_uri = pick_value overrides.redirect_uri
            (env_value env "BASECAMP_REDIRECT_URI") config.integration.redirect_uri)
  ∧ (∀ parseUrl env config secrets overrides,
        pick_value overrides.client_id (env_value env "BASECAMP_CLIENT_ID")
            config.integration.client_id = none →
        resolve_login_credentials parseUrl env config secrets overrides =
          .error (AppError.invalid_input
            "Missing client_id. Set via --client-id, BASECAMP_CLIENT_ID, or `basecamp integration set`."))
  ∧ (∀ parseUrl env config secrets overrides,
        pick_value overrides.client_id (env_value env "BASECAMP_CLIENT_ID")
            config.integration.client_id ≠ none →
        pick_value overrides.client_secret (env_value env "BASECAMP_CLIENT_SECRET")
            secrets.client_secret = none →
        resolve_login_credentials parseUrl env config secrets overrides =
          .error (AppError.invalid_input
            "Missing client_secret. Set via --client-secret, BASECAMP_CLIENT_SECRET, or `basecamp integration set`."))
  ∧ (∀ parseUrl env config secrets overrides,
        pick_value overrides.client_id (env_value env "BASECAMP_CLIENT_ID")
            config.integration.client_id ≠ none →
        pick_value overrides.client_secret (env_value env "BASECAMP_CLIENT_SECRET")
            secrets.client_secret ≠ none →
        pick_value overrides.redirect_uri (env_value env "BASECAMP_REDIRECT_URI")
            config.integration.redirect_uri = none →
        resolve_login_credentials parseUrl env config secrets overrides =
          .error (AppError.invalid_input
            "Missing redirect_uri. Set via --redirect-uri, BASECAMP_REDIRECT_URI, or `basecamp integration set`.")) := by
  refine ⟨pick_value_eq_first_non_blank, ?_, ?_, ?_, ?_⟩
  · intro parseUrl env config secrets overrides r hr
    simp only [resolve_login_credentials] at hr
    cases h1 : pick_value overrides.client_id (env_value env "BASECAMP_CLIENT_ID")
        config.integration.client_id with
    | none => rw [h1] at hr; exact absurd hr (by simp)
    | some cid =>
      rw [h1] at hr
      cases h2 : pick_value overrides.client_secret
          (env_value env "BASECAMP_CLIENT_SECRET") secrets.client_secret with
      | none => rw [h2] at hr; exact absurd hr (by simp)
      | some cs =>
        rw [h2] at hr
        cases h3 : pick_value overrides.redirect_uri
            (env_value env "BASECAMP_REDIRECT_URI")
            config.integration.redirect_uri with
        | none => rw [h3] at hr; exact absurd hr (by simp)
        | some ru =>
          rw [h3] at hr
          dsimp only at hr
          cases h4 : validate_redirect_uri parseUrl ru with
          | error e => rw [h4] at hr; exact absurd hr (by simp)
          | ok u =>
            rw [h4] at hr
            simp only [Except.ok.injEq] at hr
            subst hr
            exact ⟨rfl, rfl, rfl⟩
  · intro parseUrl env config secrets overrides h1
    simp [resolve_login_credentials, h1]
  · intro parseUrl env config secrets overrides h1 h2
    rcases Option.ne_none_iff_exists.mp h1 with ⟨cid, hcid⟩
    simp [resolve_login_credentials, ← hcid, h2]
  · intro parseUrl env config secrets overrides h1 h2 h3
    rcases Option.ne_none_iff_exists.mp h1 with ⟨cid, hcid⟩
    rcases Option.ne_none_iff_exists.mp h2 with ⟨cs, hcs⟩
    simp [resolve_login_credentials, ← hcid, ← hcs, h3]

theorem resolve_login_credentials_priority_witness :
    pick_value (some "  ") (some "from-env") (some "stored") =
      first_non_blank (some "  ") (some "from-env") (some "stored") ∧
    resolve_login_credentials (fun _ => .error "unused") (fun _ => none)
      ⟨⟨none, none⟩, ⟨none, none, none, none⟩⟩ ⟨none, none, none⟩
      ⟨none, none, none⟩ = .error (AppError.invalid_input
        "Missing client_id. Set via --client-id, BASECAMP_CLIENT_ID, or `basecamp integration set`.") :=
  ⟨resolve_login_credentials_priority.1 (some "  ") (some "from-env") (some "stored"),
   resolve_login_credentials_priority.2.2.1 (fun _ => .error "unused") (fun _ => none)
     ⟨⟨none, none⟩, ⟨none, none, none, none⟩⟩ ⟨none, none, none⟩
     ⟨none, none, none⟩ rfl⟩

/-- C4: with the parse outcome of the url crate given, CallbackServer bind
validation succeeds exactly on parsed URIs whose scheme is http, whose host
is localhost or 127.0.0.1 and which report a port, producing the listener
address 127.0.0.1 on that port; any URI violating one of the three
conditions, or failing to parse, yields an invalid-input error before any
listener address is produced, so no socket is opened. -/
theorem callback_bind_validation (parseUrl : String → Except String ParsedUrl)
    (uri : String) :
    (∀ u, parseUrl uri = .ok u → u.scheme = "http" →
        (u.host = some "localhost" ∨ u.host = some "127.0.0.1") →
        ∀ p, u.port = some p →
        CallbackServer.bind_plan parseUrl uri =
          .ok ⟨"127.0.0.1:" ++ toString p, if u.path.isEmpty then "/" else u.path⟩)
  ∧ (∀ u, parseUrl uri = .ok u →
        (u.scheme ≠ "http" ∨
         (∀ h, u.host = some h → h ≠ "localhost" ∧ h ≠ "127.0.0.1") ∨
         u.port = none) →
        ∃ m, CallbackServer.bind_plan parseUrl uri =
          .error (AppError.invalid_input m))
  ∧ (∀ err, parseUrl uri = .error err →
        ∃ m, CallbackServer.bind_plan parseUrl uri =
          .error (AppError.invalid_input m)) := by
  refine ⟨?_, ?_, ?_⟩
  · intro u hu hscheme hhost p hport
    rcases hhost with hh | hh <;>
      simp [CallbackServer.bind_plan, hu, hscheme, hh, hport]
  · intro u hu hviol
    simp only [CallbackServer.bind_plan, hu]
    by_cases hscheme : u.scheme = "http"
    · cases hhost : u.host with
      | none =>
        exact ⟨"redirect_uri must include a host.", by simp [hscheme]⟩
      | some h =>
        by_cases hloc : h = "localhost" ∨ h = "127.0.0.1"
        · have hport : u.port = none := by
            rcases hviol with hv | hv | hv
            · exact absurd hscheme hv
            · rcases (hv h hhost) with ⟨hv1, hv2⟩
              rcases hloc with rfl | rfl
              · exact absurd rfl hv1
              · exact absurd rfl hv2
            · exact hv
          rcases hloc with rfl | rfl <;>
            exact ⟨"redirect_uri must include an explicit port for local callback handling.",
              by simp [hscheme, hport]⟩
        · push_neg at hloc
          have hb : (h != "127.0.0.1" && h != "localhost") = true := by
            simp [bne_iff_ne, hloc.1, hloc.2]
          exact ⟨"redirect_uri host must be localhost or 127.0.0.1 for CLI login.",
            by simp [hscheme, hloc.1, hloc.2]⟩
    · exact ⟨"redirect_uri for CLI login must use http loopback (for example http://127.0.0.1:45455/callback).",
        by simp [hscheme]⟩
  · intro err herr
    exact ⟨"Invalid redirect_uri: " ++ err,
      by simp [CallbackServer.bind_plan, herr]⟩

theorem callback_bind_validation_witness :
    CallbackServer.bind_plan
      (fun _ => .ok ⟨"http", some "127.0.0.1", some 45455, "/callback"⟩)
      "http://127.0.0.1:45455/callback" =
      .ok ⟨"127.0.0.1:" ++ toString 45455, "/callback"⟩ ∧
    (∃ m, CallbackServer.bind_plan
      (fun _ => .ok ⟨"https", some "127.0.0.1", some 45455, "/callback"⟩)
      "https://127.0.0.1:45455/callback" =
      .error (AppError.invalid_input m)) := by
  constructor
  · have := (callback_bind_validation
        (fun _ => .ok ⟨"http", some "127.0.0.1", some 45455, "/callback"⟩)
        "http://127.0.0.1:45455/callback").1
        ⟨"http", some "127.0.0.1", some 45455, "/callback"⟩
        rfl rfl (Or.inr rfl) 45455 rfl
    simpa using this
  · exact (callback_bind_validation
        (fun _ => .ok ⟨"https", some "127.0.0.1", some 45455, "/callback"⟩)
        "https://127.0.0.1:45455/callback").2.1
        ⟨"https", some "127.0.0.1", some 45455, "/callback"⟩
        rfl (Or.inl (by decide))

theorem secretConfig_fromJson_toJson (c : SecretConfig) :
    SecretConfig.fromJson c.toJson = .ok c := by
  rcases c with ⟨cs, acc, refr⟩
  rcases cs with _ | a <;> rcases acc with _ | b <;> rcases refr with _ | d <;> rfl

theorem envelope_fromJson_toJson (f : EncryptedSecretsFile)
    (hf : f.version < 256) :
    EncryptedSecretsFile.fromJson f.toJson = .ok f := by
  rcases f with ⟨v, s⟩
  simp only at hf
  have h1 : lookupField [("version", Json.num v), ("secrets", SecretConfig.toJson s)]
      "version" = some (Json.num v) := rfl
  have h2 : lookupField [("version", Json.num v), ("secrets", SecretConfig.toJson s)]
      "secrets" = some (SecretConfig.toJson s) := rfl
  have hv : (if v < 256 then (Except.ok v : Except String Nat)
      else .error "invalid value: integer out of u8 range") = .ok v := if_pos hf
  simp only [EncryptedSecretsFile.toJson, EncryptedSecretsFile.fromJson, h1, h2,
    decodeU8, hv, secretConfig_fromJson_toJson]
  rfl

/-- C2: for every SecretConfig value, loading the vault file produced by save
under the same passphrase returns the value unchanged; loading it under any
different passphrase fails with a secure-storage error and never returns any
SecretConfig. -/
theorem vault_round_trip (v : SecretConfig) (p q : String) :
    SecretStore.load (some (SecretStore.save v p)) p = .ok v ∧
    (q ≠ p →
      SecretStore.load (some (SecretStore.save v p)) q =
        .error (AppError.secure_storage
          "Failed to decrypt secret data: decryption failed") ∧
      ∀ w, SecretStore.load (some (SecretStore.save v p)) q ≠ .ok w) := by
  constructor
  · have henv := envelope_fromJson_toJson ⟨1, v⟩
      (show (1 : Nat) < 256 by decide)
    simp [SecretStore.load, SecretStore.save, encrypt_with_passphrase,
      decrypt_with_passphrase, henv, SECRETS_VERSION]
  · intro hqp
    have hk : (p == q) = false := beq_eq_false_iff_ne.mpr (Ne.symm hqp)
    have hres : SecretStore.load (some (SecretStore.save v p)) q =
        .error (AppError.secure_storage
          "Failed to decrypt secret data: decryption failed") := by
      simp [SecretStore.load, SecretStore.save, encrypt_with_passphrase,
        decrypt_with_passphrase, hk]
    exact ⟨hres, fun w hw => by rw [hres] at hw; exact Except.noConfusion hw⟩

theorem vault_round_trip_witness :
    SecretStore.load (some (SecretStore.save
        ⟨some "sec", some "acc", some "ref"⟩ "pw")) "pw" =
      .ok ⟨some "sec", some "acc", some "ref"⟩ ∧
    SecretStore.load (some (SecretStore.save
        ⟨some "sec", some "acc", some "ref"⟩ "pw")) "other" =
      .error (AppError.secure_storage
        "Failed to decrypt secret data: decryption failed") :=
  ⟨(vault_round_trip ⟨some "sec", some "acc", some "ref"⟩ "pw" "other").1,
   ((vault_round_trip ⟨some "sec", some "acc", some "ref"⟩ "pw" "other").2
     (by decide)).1⟩

/-- C3: loading an envelope whose version exceeds SECRETS_VERSION fails with a
secure-storage error; loading one whose version is at most SECRETS_VERSION
returns the contained secrets; save always serializes the envelope with
version equal to SECRETS_VERSION. -/
theorem vault_version_check (s : SecretConfig) (p : String) (n : Nat)
    (hn : n < 256) :
    (n > SECRETS_VERSION → ∃ m,
        SecretStore.load (some (encrypt_with_passphrase
          (EncryptedSecretsFile.toJson ⟨n, s⟩) p)) p =
          .error (AppError.secure_storage m))
  ∧ (n ≤ SECRETS_VERSION →
        SecretStore.load (some (encrypt_with_passphrase
          (EncryptedSecretsFile.toJson ⟨n, s⟩) p)) p = .ok s)
  ∧ EncryptedSecretsFile.fromJson (SecretStore.save s p).payload =
      .ok ⟨SECRETS_VERSION, s⟩ := by
  have henv := envelope_fromJson_toJson ⟨n, s⟩ hn
  refine ⟨?_, ?_, ?_⟩
  · intro hgt
    have hgt1 : 1 < n := hgt
    refine ⟨"Secrets file version " ++ toString n ++
      " is newer than supported version " ++ toString SECRETS_VERSION ++ ".", ?_⟩
    simp [SecretStore.load, encrypt_with_passphrase, decrypt_with_passphrase,
      henv, hgt1, SECRETS_VERSION]
  · intro hle
    have hnotgt : ¬ 1 < n := not_lt.mpr hle
    simp [SecretStore.load, encrypt_with_passphrase, decrypt_with_passphrase,
      henv, hnotgt, SECRETS_VERSION]
  · exact envelope_fromJson_toJson ⟨1, s⟩
      (show (1 : Nat) < 256 by decide)

theorem vault_version_check_witness :
    (∃ m, SecretStore.load (some (encrypt_with_passphrase
        (EncryptedSecretsFile.toJson ⟨2, ⟨none, none, none⟩⟩) "pw")) "pw" =
        .error (AppError.secure_storage m)) ∧
    SecretStore.load (some (encrypt_with_passphrase
        (EncryptedSecretsFile.toJson ⟨1, ⟨none, none, none⟩⟩) "pw")) "pw" =
      .ok ⟨none, none, none⟩ :=
  ⟨(vault_version_check ⟨none, none, none⟩ "pw" 2 (by decide)).1 (by decide),
   (vault_version_check ⟨none, none, none⟩ "pw" 1 (by decide)).2.1 (by decide)⟩

/-- C8: save_session writes the tokens into the vault before any plaintext
config write, and an execution in which the vault write fails returns that
error with no save_config effect performed, leaving the config file
unchanged; whenever a save_config effect occurs, a save_secrets effect
carrying both tokens occurs strictly earlier in the trace. -/
theorem save_session_vault_write_first (env : StoreEnv) (data : SessionData) :
    (∀ s e, env.load_secrets_result = .ok s →
        env.save_secrets_result
          { s with access_token := some data.access_token,
                   refresh_token := some data.refresh_token } = .error e →
        (save_session env data).1 = .error e ∧
        ∀ c, StoreStep.save_config c ∉ (save_session env data).2)
  ∧ (∀ c, StoreStep.save_config c ∈ (save_session env data).2 →
        ∃ l1 s l2, (save_session env data).2 =
            l1 ++ StoreStep.save_secrets s :: l2 ∧
          StoreStep.save_config c ∈ l2 ∧
          s.access_token = some data.access_token ∧
          s.refresh_token = some data.refresh_token) := by
  constructor
  · intro s e hload hsave
    simp [save_session, hload, hsave]
  · intro c hc
    cases hload : env.load_secrets_result with
    | error e => simp [save_session, hload] at hc
    | ok s0 =>
      cases hsave : env.save_secrets_result
          { s0 with access_token := some data.access_token,
                    refresh_token := some data.refresh_token } with
      | error e => simp [save_session, hload, hsave] at hc
      | ok u1 =>
        cases hlc : env.load_config_result with
        | error e => simp [save_session, hload, hsave, hlc] at hc
        | ok config0 =>
          cases hsc : env.save_config_result
              { config0 with session :=
                  { account_id := some data.account_id,
                    account_name := some data.account_name,
                    account_href := some data.account_href,
                    updated_at := some env.now } } with
          | error e =>
            refine ⟨[StoreStep.load_secrets],
              { s0 with access_token := some data.access_token,
                        refresh_token := some data.refresh_token },
              [StoreStep.load_config,
               StoreStep.save_config
                 { config0 with session :=
                     { account_id := some data.account_id,
                       account_name := some data.account_name,
                       account_href := some data.account_href,
                       updated_at := some env.now } }], ?_, ?_, rfl, rfl⟩
            · simp [save_session, hload, hsave, hlc, hsc]
            · simp [save_session, hload, hsave, hlc, hsc] at hc
              simp [hc]
          | ok u2 =>
            refine ⟨[StoreStep.load_secrets],
              { s0 with access_token := some data.access_token,
                        refresh_token := some data.refresh_token },
              [StoreStep.load_config,
               StoreStep.save_config
                 { config0 with session :=
                     { account_id := some data.account_id,
                       account_name := some data.account_name,
                       account_href := some data.account_href,
                       updated_at := some env.now } }], ?_, ?_, rfl, rfl⟩
            · simp [save_session, hload, hsave, hlc, hsc]
            · simp [save_session, hload, hsave, hlc, hsc] at hc
              simp [hc]

def vault_fail_env : StoreEnv :=
  { load_secrets_result := .ok ⟨some "cs", none, none⟩
    save_secrets_result := fun _ => .error (AppError.secure_storage "vault write failed")
    load_config_result := .ok ⟨⟨none, none⟩, ⟨none, none, none, none⟩⟩
    save_config_result := fun _ => .ok ()
    now := "1700000000" }

theorem save_session_vault_write_first_witness :
    (save_session vault_fail_env
        ⟨"acc", "ref", 7, "Seven", "h7"⟩).1 =
      .error (AppError.secure_storage "vault write failed") ∧
    ∀ c, StoreStep.save_config c ∉
      (save_session vault_fail_env ⟨"acc", "ref", 7, "Seven", "h7"⟩).2 :=
  (save_session_vault_write_first vault_fail_env ⟨"acc", "ref", 7, "Seven", "h7"⟩).1
    ⟨some "cs", none, none⟩ (AppError.secure_storage "vault write failed") rfl rfl

/-- C9 as stated is false on the code: in the execution where the temp file is
created and the write step fails, write_file_atomically returns the error with
the temp file still present and without attempting to remove it; the
best-effort deletion exists only on the rename branch. -/
theorem write_file_atomically_counterexample :
    (write_file_atomically ⟨true, false, true, true, true⟩
        ⟨some [7], none⟩ [1, 2]).result =
      .error (AppError.secure_storage "Failed to write temporary secret file") ∧
    (write_file_atomically ⟨true, false, true, true, true⟩
        ⟨some [7], none⟩ [1, 2]).fs.temp = some [] ∧
    (write_file_atomically ⟨true, false, true, true, true⟩
        ⟨some [7], none⟩ [1, 2]).remove_attempted = false :=
  ⟨rfl, rfl, rfl⟩

/-- C9 amended: every failing execution leaves the destination untouched; the
temp file is best-effort deleted only when the failing step is the rename
(where removal is attempted, succeeding when the filesystem allows), while a
failure at the write or sync step leaves the temp file behind; a successful
execution installs exactly the new content and removes the temp file. -/
theorem write_file_atomically_failure_frame (fs : FsBehavior) (s0 : FsState)
    (contents : List Nat) :
    (∀ e, (write_file_atomically fs s0 contents).result = .error e →
        (write_file_atomically fs s0 contents).fs.dest = s0.dest)
  ∧ (fs.create_ok = true → fs.write_ok = true → fs.sync_ok = true →
        fs.rename_ok = false →
        (write_file_atomically fs s0 contents).remove_attempted = true ∧
        (fs.remove_ok = true →
          (write_file_atomically fs s0 contents).fs.temp = none))
  ∧ (fs.create_ok = true → fs.write_ok = false →
        (write_file_atomically fs s0 contents).remove_attempted = false ∧
        (write_file_atomically fs s0 contents).fs.temp = some [])
  ∧ (fs.create_ok = true → fs.write_ok = true → fs.sync_ok = false →
        (write_file_atomically fs s0 contents).remove_attempted = false ∧
        (write_file_atomically fs s0 contents).fs.temp = some contents)
  ∧ ((write_file_atomically fs s0 contents).result = .ok () →
        (write_file_atomically fs s0 contents).fs = ⟨some contents, none⟩) := by
  rcases fs with ⟨co, wo, so, ro, remo⟩
  cases co <;> cases wo <;> cases so <;> cases ro <;> cases remo <;>
    simp [write_file_atomically]

theorem write_file_atomically_failure_frame_witness :
    (write_file_atomically ⟨true, true, true, false, true⟩
        ⟨some [7], none⟩ [1, 2]).remove_attempted = true ∧
    (write_file_atomically ⟨true, true, true, false, true⟩
        ⟨some [7], none⟩ [1, 2]).fs.dest = some [7] :=
  ⟨((write_file_atomically_failure_frame ⟨true, true, true, false, true⟩
      ⟨some [7], none⟩ [1, 2]).2.1 rfl rfl rfl rfl).1,
   (write_file_atomically_failure_frame ⟨true, true, true, false, true⟩
      ⟨some [7], none⟩ [1, 2]).1
     (AppError.secure_storage "Failed to atomically replace secret file") rfl⟩

end BasecampCli
